import Mathlib

/-!
# Verification of the yarpc-go backoff engine (`internal/backoff`)

Shallow embedding of the retry-delay computation engine.  Durations are
modelled as exact integer nanosecond counts (`ℤ`; Go's `time.Duration` is an
integer nanosecond count), the jitter fraction and random draws as exact
rationals (`ℚ`).  The per-instance random source is modelled as an explicit
state (`randState`): an infinite stream of draws together with a position that
advances each time a draw is consumed, standing in for the `newRand` factory
plumbing of the Go code.
-/

namespace backoff

/-- Modelled from the spec: the `exponentialOptions` struct of
`internal/backoff/exponential.go` is not in the sampled source (only
`none.go`, which builds a literal of it, is).  Per the spec's §3 data model it
carries the base (first) delay, the maximum delay, and the jitter fraction in
`[0,1]`.  The `newRand` random-source-factory field is modelled by the
explicit `randState` threading of `durationS` instead of a stored closure. -/
structure exponentialOptions where
  base : ℤ
  max : ℤ
  jitterFraction : ℚ
deriving Repr, DecidableEq

/-- Modelled from the spec: the `ExponentialStrategy` type of
`internal/backoff/exponential.go` (missing from the sampled source); it wraps
a validated `exponentialOptions` value, as `none.go` shows with its
`&ExponentialStrategy{opts: noneOpts}` literal. -/
structure ExponentialStrategy where
  opts : exponentialOptions
deriving Repr, DecidableEq

/-- From `none.go`: `noneOpts` is an `exponentialOptions` literal setting only
the random-source factory `newRand`; every other field keeps Go's zero value,
so `base = max = 0` and the jitter fraction is `0`.  The factory itself is
modelled by explicit `randState` threading, so it does not appear here. -/
def noneOpts : exponentialOptions :=
  { base := 0, max := 0, jitterFraction := 0 }

/-- From `none.go`: `None` is built at package initialization directly as an
`ExponentialStrategy` struct literal over `noneOpts`, bypassing the validating
constructor. -/
def None : ExponentialStrategy :=
  { opts := noneOpts }

/-- The Strategy invariant of the spec's §3: `0 ≤ base ≤ max` and
`jitterFraction ∈ [0,1]`. -/
def validOpts (o : exponentialOptions) : Prop :=
  0 ≤ o.base ∧ o.base ≤ o.max ∧ 0 ≤ o.jitterFraction ∧ o.jitterFraction ≤ 1

instance (o : exponentialOptions) : Decidable (validOpts o) := by
  unfold validOpts; infer_instance

/-- Modelled from the spec: the configuration-time error of §7 (the
constructor in `exponential.go` is missing from the sampled source).  Raised
exactly when `base > max`, a duration is negative, or the jitter fraction is
outside `[0,1]`. -/
inductive ConfigError where
  | negativeDuration
  | baseExceedsMax
  | jitterOutOfRange
deriving Repr, DecidableEq

/-- Modelled from the spec: `configure(options...) → Strategy` of §4.1
(`exponential.go` is missing from the sampled source).  Validation happens
once, here; failure yields a `ConfigError`, success yields a Strategy wrapping
the options unchanged. -/
def configure (o : exponentialOptions) : Except ConfigError ExponentialStrategy :=
  if o.base < 0 ∨ o.max < 0 then .error .negativeDuration
  else if o.max < o.base then .error .baseExceedsMax
  else if o.jitterFraction < 0 ∨ 1 < o.jitterFraction then .error .jitterOutOfRange
  else .ok { opts := o }

/-- Modelled from the spec: step 1 of the `duration` algorithm in §4.2
(`exponential.go` is missing from the sampled source).  The nominal
exponential target `min(max, base * 2^attempt)`, with the overflow guard:
once `base * 2^attempt` would exceed `max`, clamp directly to `max` without
performing the multiplication — here the guard compares `2^attempt` against
`max / base` so the product is never formed on the clamped path. -/
def targetFor (o : exponentialOptions) (attempt : ℕ) : ℤ :=
  if 0 < o.base ∧ o.max / o.base < 2 ^ attempt then o.max
  else min o.max (o.base * 2 ^ attempt)

/-- The per-instance private random source of §3's Backoff instance: an
infinite stream of draws (each intended to lie in `[0,1)`, as Go's
`rand.Float64` produces) and the position of the next unconsumed draw. -/
structure randState where
  draws : ℕ → ℚ
  pos : ℕ

/-- Modelled from the spec: `duration(attempt)` of §4.2 (`exponential.go` is
missing from the sampled source), with the random source passed as explicit
state.  Steps: compute the target; if it is `0` return `0` at once with the
state untouched (no draw); otherwise consume one draw `u`, form
`target*(1-jitterFraction) + target*jitterFraction*u`, and clamp the result
into `[0, max]`. -/
def durationS (o : exponentialOptions) (attempt : ℕ) (s : randState) :
    ℚ × randState :=
  let target : ℚ := (targetFor o attempt : ℤ)
  if target = 0 then (0, s)
  else
    let u := s.draws s.pos
    let result := target * (1 - o.jitterFraction) + target * o.jitterFraction * u
    (min (o.max : ℚ) (max 0 result), { s with pos := s.pos + 1 })

/-- Modelled from the spec: the per-operation Backoff instance of §3
(`exponential.go` is missing from the sampled source): a read-only copy of the
owning Strategy's parameters plus an exclusively owned random source. -/
structure exponentialBackoff where
  opts : exponentialOptions
  random : randState

/-- Modelled from the spec: `newBackoff()` of §4.1 (`exponential.go` is
missing from the sampled source).  Pure factory: it pairs the Strategy's
parameters with a fresh random source (supplied here explicitly, standing for
the `newRand` factory call) and can never fail. -/
def ExponentialStrategy.newBackoff (st : ExponentialStrategy) (r : randState) :
    exponentialBackoff :=
  { opts := st.opts, random := r }

/-- Modelled from the spec: the instance-level `duration(attempt)` of §4.2,
threading the instance's private random source through `durationS`.  It
returns a plain duration — there is no error outcome in its type. -/
def exponentialBackoff.duration (b : exponentialBackoff) (attempt : ℕ) :
    ℚ × exponentialBackoff :=
  let p := durationS b.opts attempt b.random
  (p.1, { opts := b.opts, random := p.2 })

/-! ### Helper lemmas shared by the claim theorems -/

/-- The overflow-guarded target computation agrees with the mathematical
`min(max, base * 2^attempt)` on every validly configured option set. -/
lemma targetFor_eq_min (o : exponentialOptions) (a : ℕ) :
    targetFor o a = min o.max (o.base * 2 ^ a) := by
  unfold targetFor
  split_ifs with h
  · have hlt : o.max < o.base * 2 ^ a := by
      have := (Int.ediv_lt_iff_lt_mul h.1).mp h.2
      linarith [this]
  -- the guard fired, so the min collapses to `max`
    exact (min_eq_left hlt.le).symm
  · rfl

/-- On valid options the target is non-negative. -/
lemma targetFor_nonneg (o : exponentialOptions) (hv : validOpts o) (a : ℕ) :
    0 ≤ targetFor o a := by
  rw [targetFor_eq_min o a]
  rcases hv with ⟨hb, hbm, -, -⟩
  exact le_min (hb.trans hbm) (mul_nonneg hb (by positivity))

/-- The target never exceeds the configured ceiling. -/
lemma targetFor_le_max (o : exponentialOptions) (a : ℕ) :
    targetFor o a ≤ o.max := by
  rw [targetFor_eq_min o a]
  exact min_le_left _ _

/-- With a zero jitter fraction, the computed duration is exactly the target,
whatever the random source holds. -/
lemma durationS_fst_of_jitter_zero (o : exponentialOptions) (hv : validOpts o)
    (hj : o.jitterFraction = 0) (a : ℕ) (s : randState) :
    (durationS o a s).1 = ((targetFor o a : ℤ) : ℚ) := by
  unfold durationS
  simp only [hj]
  split_ifs with h
  · simp [h]
  · have h0 : (0 : ℚ) ≤ ((targetFor o a : ℤ) : ℚ) := by
      exact_mod_cast targetFor_nonneg o hv a
    have hm : ((targetFor o a : ℤ) : ℚ) ≤ (o.max : ℚ) := by
      exact_mod_cast targetFor_le_max o a
    simp only [sub_zero, mul_one, mul_zero, zero_mul, add_zero]
    rw [max_eq_right h0, min_eq_right hm]

/-- On valid options the computed duration is non-negative, whatever the
random source holds. -/
lemma durationS_fst_nonneg (o : exponentialOptions) (hv : validOpts o) (a : ℕ)
    (s : randState) : 0 ≤ (durationS o a s).1 := by
  have hm : (0 : ℤ) ≤ o.max := hv.1.trans hv.2.1
  unfold durationS
  dsimp only
  split_ifs with h
  · exact le_refl 0
  · exact le_min (by exact_mod_cast hm) (le_max_left 0 _)

/-- On valid options the computed duration never exceeds the ceiling,
whatever the random source holds. -/
lemma durationS_fst_le_max (o : exponentialOptions) (hv : validOpts o) (a : ℕ)
    (s : randState) : (durationS o a s).1 ≤ (o.max : ℚ) := by
  have hm : (0 : ℤ) ≤ o.max := hv.1.trans hv.2.1
  unfold durationS
  dsimp only
  split_ifs with h
  · show (0 : ℚ) ≤ (o.max : ℚ)
    exact_mod_cast hm
  · exact min_le_left _ _

/-! ### Claim theorems -/

/-- C1: for the `None` strategy — the `ExponentialStrategy` whose options
leave `base` and `max` at zero, setting only the random-source factory —
`duration(a)` returns exactly `0` for every attempt index `a` and every
possible random draw. -/
theorem C1_none_duration_zero (a : ℕ) (s : randState) :
    (durationS None.opts a s).1 = 0 := by
  show (durationS noneOpts a s).1 = 0
  unfold durationS targetFor noneOpts
  norm_num

/-- C2: for every validly configured strategy, every attempt index `a` and
every random draw (here: every random-source state whatsoever), the returned
duration is at least `0` and at most the configured `max`. -/
theorem C2_duration_bounds (o : exponentialOptions) (hv : validOpts o) (a : ℕ)
    (s : randState) :
    0 ≤ (durationS o a s).1 ∧ (durationS o a s).1 ≤ (o.max : ℚ) :=
  ⟨durationS_fst_nonneg o hv a s, durationS_fst_le_max o hv a s⟩

/-- Witness for C2 at `base = 1, max = 4, jitter = 1` with a concrete
random source. -/
theorem C2_duration_bounds_witness :
    validOpts ⟨1, 4, 1⟩ ∧
      (0 ≤ (durationS ⟨1, 4, 1⟩ 1 ⟨fun _ => 0, 0⟩).1 ∧
        (durationS ⟨1, 4, 1⟩ 1 ⟨fun _ => 0, 0⟩).1 ≤ ((4 : ℤ) : ℚ)) :=
  ⟨by decide, C2_duration_bounds ⟨1, 4, 1⟩ (by decide) 1 ⟨fun _ => 0, 0⟩⟩

/-- C7: whenever the computed target `min(max, base * 2^attempt)` is `0`,
`duration` returns `0` immediately and the random source is not advanced:
the returned state is exactly the input state, so no draw is consumed and
nothing else changes. -/
theorem C7_zero_target_frame (o : exponentialOptions) (a : ℕ) (s : randState)
    (h : targetFor o a = 0) : durationS o a s = (0, s) := by
  unfold durationS
  rw [if_pos (by exact_mod_cast h)]

/-- Witness for C7 on the `None` options at attempt `5`. -/
theorem C7_zero_target_frame_witness :
    targetFor noneOpts 5 = 0 ∧
      durationS noneOpts 5 ⟨fun _ => 1/2, 3⟩ = (0, ⟨fun _ => 1/2, 3⟩) :=
  ⟨by decide, C7_zero_target_frame noneOpts 5 ⟨fun _ => 1/2, 3⟩ (by decide)⟩

/-- C8: when the jitter fraction is `0` and the target is nonzero, the
output of `duration(attempt)` is independent of the random source: any two
runs on the same attempt with different random draws return the identical
value, equal to the target. -/
theorem C8_jitter_zero_noninterference (o : exponentialOptions)
    (hv : validOpts o) (hj : o.jitterFraction = 0) (a : ℕ)
    (ht : targetFor o a ≠ 0) (s₁ s₂ : randState) :
    (durationS o a s₁).1 = (durationS o a s₂).1 ∧
      (durationS o a s₁).1 = ((targetFor o a : ℤ) : ℚ) := by
  rw [durationS_fst_of_jitter_zero o hv hj a s₁,
    durationS_fst_of_jitter_zero o hv hj a s₂]
  exact ⟨rfl, rfl⟩

/-- Witness for C8 at `base = 1, max = 4, jitter = 0`, attempt `1`, with two
different random sources. -/
theorem C8_jitter_zero_noninterference_witness :
    validOpts ⟨1, 4, 0⟩ ∧ (⟨1, 4, 0⟩ : exponentialOptions).jitterFraction = 0 ∧
      targetFor ⟨1, 4, 0⟩ 1 ≠ 0 ∧
      ((durationS ⟨1, 4, 0⟩ 1 ⟨fun _ => 1/2, 0⟩).1 =
          (durationS ⟨1, 4, 0⟩ 1 ⟨fun _ => 3/4, 7⟩).1 ∧
        (durationS ⟨1, 4, 0⟩ 1 ⟨fun _ => 1/2, 0⟩).1 =
          ((targetFor ⟨1, 4, 0⟩ 1 : ℤ) : ℚ)) :=
  ⟨by decide, by decide, by decide,
    C8_jitter_zero_noninterference ⟨1, 4, 0⟩ (by decide) (by decide) 1
      (by decide) ⟨fun _ => 1/2, 0⟩ ⟨fun _ => 3/4, 7⟩⟩

/-- C3: for every non-degenerate strategy (`base > 0`) with a zero jitter
fraction, `duration(a)` equals `min(max, base * 2^a)` exactly; as a function
of `a` it is non-decreasing, strictly increasing while below `max`, and
constant at `max` once it has reached it. -/
theorem C3_growth_then_plateau (o : exponentialOptions) (hv : validOpts o)
    (hb : 0 < o.base) (hj : o.jitterFraction = 0) (a : ℕ) (s : randState) :
    (durationS o a s).1 = ((min o.max (o.base * 2 ^ a) : ℤ) : ℚ) ∧
      (durationS o a s).1 ≤ (durationS o (a + 1) s).1 ∧
      ((durationS o a s).1 < (o.max : ℚ) →
        (durationS o a s).1 < (durationS o (a + 1) s).1) ∧
      ((durationS o a s).1 = (o.max : ℚ) →
        (durationS o (a + 1) s).1 = (o.max : ℚ)) := by
  have hd : ∀ n, (durationS o n s).1 = ((targetFor o n : ℤ) : ℚ) := fun n =>
    durationS_fst_of_jitter_zero o hv hj n s
  have he : ∀ n, targetFor o n = min o.max (o.base * 2 ^ n) := fun n =>
    targetFor_eq_min o n
  have hpow_lt : o.base * 2 ^ a < o.base * 2 ^ (a + 1) := by
    have h2 : (2 : ℤ) ^ a < 2 ^ (a + 1) := by
      have hp : (0 : ℤ) < 2 ^ a := pow_pos (by norm_num) a
      rw [pow_succ]
      linarith
    exact mul_lt_mul_of_pos_left h2 hb
  refine ⟨by rw [hd a, he a], ?_, ?_, ?_⟩
  · rw [hd a, hd (a + 1), he a, he (a + 1)]
    exact_mod_cast min_le_min le_rfl hpow_lt.le
  · intro hlt
    rw [hd a, he a] at hlt ⊢
    rw [hd (a + 1), he (a + 1)]
    have hmin_lt : min o.max (o.base * 2 ^ a) < o.max := by exact_mod_cast hlt
    have hxm : o.base * 2 ^ a < o.max := by
      rcases min_lt_iff.mp hmin_lt with h | h
      · exact absurd h (lt_irrefl _)
      · exact h
    have hstep : min o.max (o.base * 2 ^ a) < min o.max (o.base * 2 ^ (a + 1)) := by
      rw [min_eq_right hxm.le]
      exact lt_min hxm hpow_lt
    exact_mod_cast hstep
  · intro heq
    rw [hd a, he a] at heq
    rw [hd (a + 1), he (a + 1)]
    have h1 : min o.max (o.base * 2 ^ a) = o.max := by exact_mod_cast heq
    have hge : o.max ≤ o.base * 2 ^ a := min_eq_left_iff.mp h1
    have h2 : min o.max (o.base * 2 ^ (a + 1)) = o.max :=
      min_eq_left (hge.trans hpow_lt.le)
    exact_mod_cast h2

/-- Witness for C3 at `base = 1, max = 4, jitter = 0`, attempt `1`. -/
theorem C3_growth_then_plateau_witness :
    validOpts ⟨1, 4, 0⟩ ∧ (0 : ℤ) < (1 : ℤ) ∧
      (durationS ⟨1, 4, 0⟩ 1 ⟨fun _ => 0, 0⟩).1 =
        ((min (4 : ℤ) (1 * 2 ^ 1) : ℤ) : ℚ) :=
  ⟨by decide, by decide,
    (C3_growth_then_plateau ⟨1, 4, 0⟩ (by decide) (by decide) (by decide) 1
      ⟨fun _ => 0, 0⟩).1⟩

/-- C4: construction fails with a `ConfigError` exactly when `base > max`, a
duration is negative, or the jitter fraction lies outside `[0,1]`; on success
the resulting Strategy satisfies `0 ≤ base ≤ max` and
`0 ≤ jitterFraction ≤ 1`, and the later operations `newBackoff` and
`duration` leave the configuration untouched and return plain values — their
types carry no error outcome, so neither can raise a `ConfigError`. -/
theorem C4_configure_validation (o : exponentialOptions) :
    ((∃ e, configure o = .error e) ↔
        (o.base < 0 ∨ o.max < 0 ∨ o.max < o.base ∨
          o.jitterFraction < 0 ∨ 1 < o.jitterFraction)) ∧
      (∀ st, configure o = .ok st →
        validOpts st.opts ∧
          (∀ r, (st.newBackoff r).opts = st.opts) ∧
          (∀ r a, ((st.newBackoff r).duration a).2.opts = st.opts)) := by
  constructor
  · constructor
    · rintro ⟨e, he⟩
      unfold configure at he
      split_ifs at he with h1 h2 h3
      · tauto
      · tauto
      · tauto
    · intro hbad
      unfold configure
      split_ifs with h1 h2 h3
      · exact ⟨_, rfl⟩
      · exact ⟨_, rfl⟩
      · exact ⟨_, rfl⟩
      · exact absurd hbad (by tauto)
  · intro st hst
    unfold configure at hst
    split_ifs at hst with h1 h2 h3
    have hopts : st.opts = o := by
      injection hst with h
      rw [← h]
    push_neg at h1 h3
    refine ⟨?_, fun r => rfl, fun r a => rfl⟩
    rw [hopts]
    exact ⟨h1.1, not_lt.mp h2, h3.1, h3.2⟩

/-- Witness for C4: a configuration with no violation constructs
successfully. -/
theorem C4_configure_validation_witness :
    ¬(∃ e, configure ⟨1, 4, 0⟩ = .error e) := by
  have h := (C4_configure_validation ⟨1, 4, 0⟩).1
  intro hex
  exact absurd (h.mp hex) (by decide)

/-- C5: `duration` is total over all attempt indices: for every validly
configured strategy, every attempt index (however large) and every random
source, the guarded target equals `min(max, base * 2^a)` — the clamp to `max`
replaces the multiplication on the overflow path — and the returned duration
is a finite value between `0` and `max`. -/
theorem C5_total_no_overflow (o : exponentialOptions) (hv : validOpts o)
    (a : ℕ) (s : randState) :
    targetFor o a = min o.max (o.base * 2 ^ a) ∧
      0 ≤ (durationS o a s).1 ∧ (durationS o a s).1 ≤ (o.max : ℚ) :=
  ⟨targetFor_eq_min o a, durationS_fst_nonneg o hv a s,
    durationS_fst_le_max o hv a s⟩

/-- Witness for C5 at the very large attempt index `1000`. -/
theorem C5_total_no_overflow_witness :
    validOpts ⟨10000000, 1000000000, 0⟩ ∧
      (targetFor ⟨10000000, 1000000000, 0⟩ 1000 =
          min (1000000000 : ℤ) (10000000 * 2 ^ 1000) ∧
        0 ≤ (durationS ⟨10000000, 1000000000, 0⟩ 1000 ⟨fun _ => 0, 0⟩).1 ∧
        (durationS ⟨10000000, 1000000000, 0⟩ 1000 ⟨fun _ => 0, 0⟩).1 ≤
          ((1000000000 : ℤ) : ℚ)) :=
  ⟨by decide,
    C5_total_no_overflow ⟨10000000, 1000000000, 0⟩ (by decide) 1000
      ⟨fun _ => 0, 0⟩⟩

/-- C6: for every strategy with jitter fraction `j > 0`, every attempt index
and every consumed draw `u ∈ [0,1)`, the returned duration lies in the closed
interval `[t*(1-j), t]` for the target `t = min(max, base * 2^a)`: jitter
never lengthens the delay beyond the nominal exponential target. -/
theorem C6_jitter_bounds (o : exponentialOptions) (hv : validOpts o)
    (hj : 0 < o.jitterFraction) (a : ℕ) (s : randState)
    (hu0 : 0 ≤ s.draws s.pos) (hu1 : s.draws s.pos < 1) :
    ((targetFor o a : ℤ) : ℚ) * (1 - o.jitterFraction) ≤ (durationS o a s).1 ∧
      (durationS o a s).1 ≤ ((targetFor o a : ℤ) : ℚ) := by
  obtain ⟨hb0, hbm, hj0, hj1⟩ := hv
  have ht0 : (0 : ℚ) ≤ ((targetFor o a : ℤ) : ℚ) := by
    exact_mod_cast targetFor_nonneg o ⟨hb0, hbm, hj0, hj1⟩ a
  have htm : ((targetFor o a : ℤ) : ℚ) ≤ (o.max : ℚ) := by
    exact_mod_cast targetFor_le_max o a
  unfold durationS
  dsimp only
  split_ifs with h
  · rw [h] at ht0 ⊢
    constructor
    · simp
    · exact ht0
  · constructor
    · refine le_min ?_ (le_trans ?_ (le_max_right 0 _))
      · nlinarith [mul_nonneg ht0 hj0]
      · nlinarith [mul_nonneg (mul_nonneg ht0 hj0) hu0]
    · refine le_trans (min_le_right _ _) (max_le ht0 ?_)
      nlinarith [mul_nonneg (mul_nonneg ht0 hj0) (by linarith : (0 : ℚ) ≤ 1 - s.draws s.pos)]

/-- Witness for C6 at `base = 2, max = 10, jitter = 1`, draw `0`. -/
theorem C6_jitter_bounds_witness :
    validOpts ⟨2, 10, 1⟩ ∧ (0 : ℚ) < 1 ∧
      (((targetFor ⟨2, 10, 1⟩ 0 : ℤ) : ℚ) * (1 - 1) ≤
          (durationS ⟨2, 10, 1⟩ 0 ⟨fun _ => 0, 0⟩).1 ∧
        (durationS ⟨2, 10, 1⟩ 0 ⟨fun _ => 0, 0⟩).1 ≤
          ((targetFor ⟨2, 10, 1⟩ 0 : ℤ) : ℚ)) :=
  ⟨by decide, by decide,
    C6_jitter_bounds ⟨2, 10, 1⟩ (by decide) (by decide) 0 ⟨fun _ => 0, 0⟩
      (by decide) (by decide)⟩

/-- C9: concrete scenario at `base = 10ms, max = 1000ms, jitter = 0`
(in nanoseconds: `base = 10^7`, `max = 10^9`): `duration(0) = 10ms`,
`duration(1) = 20ms`, `duration(2) = 40ms`, `duration(7) = 1000ms` (clamped
from `1280ms`), and `duration(20) = 1000ms`, for every random source. -/
theorem C9_concrete_scenario (s : randState) :
    (durationS ⟨10000000, 1000000000, 0⟩ 0 s).1 = ((10000000 : ℤ) : ℚ) ∧
      (durationS ⟨10000000, 1000000000, 0⟩ 1 s).1 = ((20000000 : ℤ) : ℚ) ∧
      (durationS ⟨10000000, 1000000000, 0⟩ 2 s).1 = ((40000000 : ℤ) : ℚ) ∧
      (durationS ⟨10000000, 1000000000, 0⟩ 7 s).1 = ((1000000000 : ℤ) : ℚ) ∧
      (durationS ⟨10000000, 1000000000, 0⟩ 20 s).1 = ((1000000000 : ℤ) : ℚ) := by
  have hv : validOpts ⟨10000000, 1000000000, 0⟩ := by decide
  have hd : ∀ n, (durationS ⟨10000000, 1000000000, 0⟩ n s).1 =
      ((targetFor ⟨10000000, 1000000000, 0⟩ n : ℤ) : ℚ) := fun n =>
    durationS_fst_of_jitter_zero _ hv rfl n s
  refine ⟨?_, ?_, ?_, ?_, ?_⟩
  · rw [hd 0]
    exact_mod_cast (show targetFor ⟨10000000, 1000000000, 0⟩ 0 = 10000000 by decide)
  · rw [hd 1]
    exact_mod_cast (show targetFor ⟨10000000, 1000000000, 0⟩ 1 = 20000000 by decide)
  · rw [hd 2]
    exact_mod_cast (show targetFor ⟨10000000, 1000000000, 0⟩ 2 = 40000000 by decide)
  · rw [hd 7]
    exact_mod_cast (show targetFor ⟨10000000, 1000000000, 0⟩ 7 = 1000000000 by decide)
  · rw [hd 20]
    exact_mod_cast (show targetFor ⟨10000000, 1000000000, 0⟩ 20 = 1000000000 by decide)

/-- C10: the `None` constant is the `ExponentialStrategy` struct literal over
`noneOpts` (built directly, not through `configure`); `noneOpts` leaves
`base`, `max` and the jitter fraction at the zero value of their types, and
the resulting options nonetheless satisfy the Strategy invariant
`0 ≤ base ≤ max`, `jitterFraction ∈ [0,1]` — an ordinary value of the
exponential strategy type, not a distinct type or code path. -/
theorem C10_none_is_ordinary_strategy :
    None = ExponentialStrategy.mk noneOpts ∧
      noneOpts.base = 0 ∧ noneOpts.max = 0 ∧ noneOpts.jitterFraction = 0 ∧
      validOpts noneOpts ∧ configure noneOpts = .ok None := by
  refine ⟨rfl, rfl, rfl, rfl, by decide, ?_⟩
  unfold configure None noneOpts
  norm_num

end backoff
